import Mathlib

set_option maxHeartbeats 1000000
set_option maxRecDepth 100000

/-! Shallow embedding of the Democratic Backsliding Tracker front-end
(`app.js` and the map module `map.js`) and proofs about its filter/sort
derivation, renderers, and map state machine.

JavaScript field values that may be `undefined` or `null` are modelled by
`JVal`; code paths that would raise a `TypeError` are modelled in
`Except String`. -/

/-- A JavaScript value that is `undefined`, `null`, or present. -/
inductive JVal (α : Type) where
  | undef : JVal α
  | null : JVal α
  | val : α → JVal α
deriving DecidableEq, Repr

namespace JVal

/-- JS nullish coalescing `v ?? d` (`undefined` and `null` fall back to `d`). -/
def nullish {α : Type} (v : JVal α) (d : α) : α :=
  match v with
  | .val a => a
  | _ => d

/-- `v !== null && v !== undefined`: the value is actually present. -/
def isVal {α : Type} : JVal α → Bool
  | .val _ => true
  | _ => false

end JVal

/-- JS `s || d` on a string-valued field: `undefined`, `null` and `""` are falsy. -/
def jsOrStr (v : JVal String) (d : String) : String :=
  match v with
  | .val s => if s = "" then d else s
  | _ => d

/-- JS `a || []` on an array-valued field: every array object, even empty, is truthy. -/
def jsOrList {α : Type} (v : JVal (List α)) : List α :=
  match v with
  | .val l => l
  | _ => []

/-- Models `Math.round`: round half toward positive infinity. -/
def jsRound (q : Rat) : Int := (q + 1/2).floor

/-- Left-pad a digit string with zeros up to width `d`. -/
def padZeros (s : String) (d : Nat) : String :=
  if s.length < d then String.mk (List.replicate (d - s.length) '0') ++ s else s

/-- Models `Number.prototype.toFixed` for the nonnegative finite decimals used by
the dashboard: round to `d` decimal places and print exactly `d` digits after
the dot. -/
def toFixed (q : Rat) (d : Nat) : String :=
  let scaled : Int := jsRound (q * ((10 : Rat) ^ d))
  let base : Nat := scaled.toNat
  let ip := base / 10 ^ d
  let fp := base % 10 ^ d
  if d = 0 then toString ip else toString ip ++ "." ++ padZeros (toString fp) d

/-- `v.toFixed d` on a possibly-absent number: calling a method on `undefined`
or `null` raises a `TypeError`. -/
def jsToFixed (v : JVal Rat) (d : Nat) : Except String String :=
  match v with
  | .val q => .ok (toFixed q d)
  | .undef => .error "TypeError: cannot read toFixed of undefined"
  | .null => .error "TypeError: cannot read toFixed of null"

/-- JS template interpolation of a possibly-absent number. -/
def jvalNumStr (v : JVal Rat) : String :=
  match v with
  | .undef => "undefined"
  | .null => "null"
  | .val q => if q.den = 1 then toString q.num else toFixed q 6

/-! ## Data model (§3 of the spec / `countryData.json` consumers) -/

/-- One ERT episode. -/
structure Episode where
  type : JVal String
  start_year : Int
  end_year : JVal Int
  description : String
deriving DecidableEq, Repr

/-- One recent key event. -/
structure RecentEvent where
  year : Int
  severity : String
  event : String
deriving DecidableEq, Repr

/-- One point of the `polyarchy_trend` time series. -/
structure TrendPoint where
  year : Int
  value : Rat
deriving DecidableEq, Repr

/-- A country record.  `vDem_polyarchy_index` embeds the JSON key
`V-Dem_polyarchy_index` (Lean names cannot contain a dash). -/
structure Country where
  name : String
  iso2 : String
  status_indicator : JVal String
  vDem_polyarchy_index : JVal Rat
  libdem_index : JVal Rat
  BTI_governance_score : JVal Rat
  DEED_event_counts : JVal Rat
  ERT_episodes : JVal (List Episode)
  recent_events : JVal (List RecentEvent)
  polyarchy_trend : JVal (List TrendPoint)
deriving DecidableEq, Repr

/-- Country flag emojis by ISO-2 code (`FLAGS` in app.js). -/
def FLAGS : List (String × String) :=
  [("AR", "🇦🇷"), ("BO", "🇧🇴"), ("BR", "🇧🇷"), ("CL", "🇨🇱"), ("CO", "🇨🇴"),
   ("CR", "🇨🇷"), ("CU", "🇨🇺"), ("DO", "🇩🇴"), ("EC", "🇪🇨"), ("SV", "🇸🇻"),
   ("GT", "🇬🇹"), ("HN", "🇭🇳"), ("MX", "🇲🇽"), ("NI", "🇳🇮"), ("PA", "🇵🇦"),
   ("PY", "🇵🇾"), ("PE", "🇵🇪"), ("UY", "🇺🇾"), ("VE", "🇻🇪")]

/-- Map status strings to CSS class names (`STATUS_CLASS` in app.js). -/
def STATUS_CLASS : List (String × String) :=
  [("stable", "stable"), ("recovering", "recovering"), ("at risk", "at-risk"),
   ("backsliding", "backsliding"), ("autocracy", "autocracy")]

/-! ## FilterSortEngine (`getFilteredSorted`, app.js lines 61-84) -/

/-- Is `needle` a contiguous run of `hay`?  (Helper for `strIncludes`.) -/
def listContainsSub {α : Type} [BEq α] (needle : List α) : List α → Bool
  | [] => needle.isEmpty
  | a :: rest => needle.isPrefixOf (a :: rest) || listContainsSub needle rest

/-- Models `String.prototype.includes`: contiguous substring test. -/
def strIncludes (s sub : String) : Bool := listContainsSub sub.toList s.toList

/-- Models `String.prototype.localeCompare`.  The host locale order is not
part of the repository; it is modelled as code-point lexicographic comparison
returning -1/0/1, which is a valid locale collation for the names used here. -/
def localeCompare (a b : String) : Int :=
  match compare a b with
  | .lt => -1
  | .eq => 0
  | .gt => 1

/-- The `activeFilters` record of app.js. -/
structure Filters where
  status : String
  sortBy : String
  sortOrder : String
  search : String
deriving DecidableEq, Repr

/-- The filter callback of `getFilteredSorted`:
`matchStatus = status === "all" || (c.status_indicator || "").toLowerCase() === status`
and `matchSearch = !search || c.name.toLowerCase().includes(search.toLowerCase())`. -/
def filterPred (status search : String) (c : Country) : Bool :=
  (status == "all" || (jsOrStr c.status_indicator "").toLower == status)
    && (search == "" || strIncludes c.name.toLower search.toLower)

/-- The key selection of the comparator: one branch per `sortBy` value, with the
sentinel `?? -1` for the three indices and `?? 0` for event counts. -/
inductive SortVal where
  | str : String → SortVal
  | num : Rat → SortVal
deriving DecidableEq, Repr

/-- `va` / `vb` selection inside the sort comparator. -/
def sortVal (sortBy : String) (c : Country) : SortVal :=
  if sortBy == "name" then .str c.name
  else if sortBy == "polyarchy" then .num (c.vDem_polyarchy_index.nullish (-1))
  else if sortBy == "libdem" then .num (c.libdem_index.nullish (-1))
  else if sortBy == "bti" then .num (c.BTI_governance_score.nullish (-1))
  else if sortBy == "events" then .num (c.DEED_event_counts.nullish 0)
  else .str c.name

/-- The sort comparator of `getFilteredSorted`: strings go through
`localeCompare` (swapped when descending), numbers return `va - vb`
(`vb - va` when descending).  The two mixed branches cannot occur because both
values come from the same key selector. -/
def sortCmp (sortBy sortOrder : String) (a b : Country) : Rat :=
  match sortVal sortBy a, sortVal sortBy b with
  | .str va, .str vb =>
      ((if sortOrder == "asc" then localeCompare va vb else localeCompare vb va : Int) : Rat)
  | .num va, .num vb => if sortOrder == "asc" then va - vb else vb - va
  | .str _, .num _ => 0
  | .num _, .str _ => 0

/-- `getFilteredSorted`: filter `allCountries` by the active criteria, then sort
the freshly allocated array in place.  `Array.prototype.sort` with a comparator
is modelled by a stable comparison sort under `sortCmp _ _ a b ≤ 0`. -/
def getFilteredSorted (allCountries : List Country) (f : Filters) : List Country :=
  (allCountries.filter (filterPred f.status f.search)).insertionSort
    (fun a b => sortCmp f.sortBy f.sortOrder a b ≤ 0)

/-- The mutable module state read by `getFilteredSorted`. -/
structure AppState where
  allCountries : List Country
  activeFilters : Filters
deriving DecidableEq, Repr

/-- State-passing form of `getFilteredSorted`: `filter` allocates a fresh
array, the in-place `sort` mutates only that fresh array, and no field of any
country record is ever assigned, so the stored state comes back unchanged. -/
def getFilteredSortedS (s : AppState) : List Country × AppState :=
  (getFilteredSorted s.allCountries s.activeFilters, s)

/-! ## Shared bar helpers (`indicatorRow`, `tableBar`, `setModalBar`)
The three bar renderers compute `pct`, `shown` and `color` with textually
identical expressions in the source; they are shared here. -/

/-- `value !== null && value !== undefined ? Math.round((value / max) * 100) : 0`. -/
def indicatorPct (value : JVal Rat) (max : Rat) : Int :=
  match value with
  | .val v => jsRound (v / max * 100)
  | _ => 0

/-- `displayVal ?? (value !== null && value !== undefined ? value.toFixed(2) : "—")`. -/
def indicatorShown (value : JVal Rat) (displayVal : JVal String) : String :=
  match displayVal with
  | .val s => s
  | _ =>
    match value with
    | .val v => toFixed v 2
    | _ => "—"

/-- `pct >= 65 ? "bar-high" : pct >= 40 ? "bar-mid" : "bar-low"`. -/
def barColor (pct : Int) : String :=
  if pct ≥ 65 then "bar-high" else if pct ≥ 40 then "bar-mid" else "bar-low"

/-- `indicatorRow` of app.js: one labelled mini-bar row of a card. -/
def indicatorRow (label : String) (value : JVal Rat) (max : Rat)
    (displayVal : JVal String) : String :=
  let pct := indicatorPct value max
  let shown := indicatorShown value displayVal
  let color := barColor pct
  "\n    <div class=\"indicator-row\">\n      <span class=\"indicator-label\">" ++ label ++
    "</span>\n      <div class=\"mini-bar-wrap\">\n        <div class=\"mini-bar " ++ color ++
    "\" data-target=\"" ++ toString pct ++
    "%\" style=\"width:0\"></div>\n      </div>\n      <span class=\"indicator-val\">" ++
    shown ++ "</span>\n    </div>"

/-- `tableBar` of app.js: one bar cell of a table row. -/
def tableBar (value : JVal Rat) (max : Rat) (displayVal : JVal String) : String :=
  let pct := indicatorPct value max
  let shown := indicatorShown value displayVal
  let color := barColor pct
  "\n    <div class=\"table-bar-wrap\">\n      <div class=\"table-mini-bar\">\n        <div class=\"table-mini-bar-fill " ++
    color ++ "\" data-target=\"" ++ toString pct ++
    "%\" style=\"width:0\"></div>\n      </div>\n      <span>" ++ shown ++ "</span>\n    </div>"

/-! ## Card renderer (`cardHTML`, app.js lines 130-158) -/

/-- `(c.status_indicator || "at risk").toLowerCase()` — the `statusKey` local
shared by the card, table-row and modal renderers. -/
def statusKeyOf (c : Country) : String := (jsOrStr c.status_indicator "at risk").toLower

/-- `STATUS_CLASS[statusKey] || "at-risk"` — the fallback CSS class band. -/
def statusClassOf (statusKey : String) : String :=
  (STATUS_CLASS.lookup statusKey).getD "at-risk"

/-- Badge text of the card header: `c.status_indicator || "unknown"`. -/
def cardBadgeText (c : Country) : String := jsOrStr c.status_indicator "unknown"

/-- Badge text of a table row: `c.status_indicator || "—"`. -/
def tableBadgeText (c : Country) : String := jsOrStr c.status_indicator "—"

/-- Badge text of the modal: `country.status_indicator || "unknown"`. -/
def modalBadgeText (c : Country) : String := jsOrStr c.status_indicator "unknown"

/-- `bti !== null ? bti / 10 : null` (card and modal).  Dividing `undefined` by
10 gives NaN in JS; that state is unreachable because the sibling display
argument raises first, and is modelled by keeping the absent value. -/
def btiNorm (bti : JVal Rat) : JVal Rat :=
  if bti ≠ JVal.null then
    match bti with
    | .val q => .val (q / 10)
    | x => x
  else .null

/-- `bti !== null ? bti.toFixed(1) + "/10" : "—"` (card): raises a `TypeError`
when the field is `undefined` (absent), because only `null` is guarded. -/
def cardBtiDisplay (bti : JVal Rat) : Except String String :=
  if bti ≠ JVal.null then (fun s => s ++ "/10") <$> jsToFixed bti 1
  else pure "—"

/-- `bti !== null ? bti.toFixed(1) : "—"` (table row). -/
def tableBtiDisplay (bti : JVal Rat) : Except String String :=
  if bti ≠ JVal.null then jsToFixed bti 1 else pure "—"

/-- `... !== null ? ....toFixed(1) + " / 10" : "—"` (modal). -/
def modalBtiDisplay (bti : JVal Rat) : Except String String :=
  if bti ≠ JVal.null then (fun s => s ++ " / 10") <$> jsToFixed bti 1
  else pure "—"

/-- `cardHTML`: one country card.  The result is an `Except` because the BTI
display argument can raise. -/
def cardHTML (c : Country) : Except String String := do
  let statusClass := statusClassOf (statusKeyOf c)
  let badgeClass := "badge-" ++ statusClass
  let poly := c.vDem_polyarchy_index
  let lib := c.libdem_index
  let bti := c.BTI_governance_score
  let ertCount := (jsOrList c.ERT_episodes).length
  let flag := (FLAGS.lookup c.iso2).getD "🏳"
  let btiDisp ← cardBtiDisplay bti
  let ertPlural := if ertCount ≠ 1 then "s" else ""
  let deedStr := jvalNumStr c.DEED_event_counts
  let deedPlural := if c.DEED_event_counts ≠ JVal.val 1 then "s" else ""
  pure ("\n    <div class=\"country-card " ++ statusClass ++ "\" data-name=\"" ++ c.name ++
    "\" tabindex=\"0\" role=\"button\" aria-label=\"View details for " ++ c.name ++
    "\">\n      <div class=\"card-header\">\n        <span class=\"card-name\">" ++ flag ++
    " " ++ c.name ++ "</span>\n        <span class=\"status-badge " ++ badgeClass ++ "\">" ++
    cardBadgeText c ++ "</span>\n      </div>\n      <div class=\"card-indicators\">\n        " ++
    indicatorRow "Electoral Democracy" poly 1 .null ++ "\n        " ++
    indicatorRow "Liberal Democracy" lib 1 .null ++ "\n        " ++
    indicatorRow "BTI Governance" (btiNorm bti) 1 (.val btiDisp) ++
    "\n      </div>\n      <div class=\"card-footer\">\n        <span class=\"ert-badge\">\n          <strong>" ++
    toString ertCount ++ "</strong> ERT episode" ++ ertPlural ++
    "\n        </span>\n        <span>" ++ deedStr ++ " key event" ++ deedPlural ++
    "</span>\n      </div>\n    </div>")

/-- One table row from the `renderTable` map callback (app.js lines 195-213). -/
def tableRowHTML (c : Country) : Except String String := do
  let statusClass := statusClassOf (statusKeyOf c)
  let badgeClass := "badge-" ++ statusClass
  let poly := c.vDem_polyarchy_index
  let lib := c.libdem_index
  let bti := c.BTI_governance_score
  let flag := (FLAGS.lookup c.iso2).getD "🏳"
  let btiDisp ← tableBtiDisplay bti
  pure ("\n      <tr data-name=\"" ++ c.name ++ "\">\n        <td><strong>" ++ flag ++ " " ++
    c.name ++ "</strong></td>\n        <td><span class=\"status-badge " ++ badgeClass ++ "\">" ++
    tableBadgeText c ++ "</span></td>\n        <td>" ++ tableBar poly 1 .null ++
    "</td>\n        <td>" ++ tableBar lib 1 .null ++ "</td>\n        <td>" ++
    tableBar bti 10 (.val btiDisp) ++ "</td>\n        <td>" ++
    toString (jsOrList c.ERT_episodes).length ++ "</td>\n        <td>" ++
    jvalNumStr (JVal.val (c.DEED_event_counts.nullish 0)) ++ "</td>\n      </tr>")

/-! ## Modal (`openModal` / `setModalBar`, app.js lines 245-309, 378-387) -/

/-- The observable outcome of `setModalBar`: target percentage, color band and
value text of one score bar. -/
structure BarView where
  pct : Int
  color : String
  text : String
deriving DecidableEq, Repr

/-- `setModalBar`: bar width target, threshold color band and value text
(`displayOverride ?? (value present ? value.toFixed(2) : "—")`). -/
def setModalBar (value : JVal Rat) (max : Rat) (displayOverride : JVal String) : BarView :=
  { pct := indicatorPct value max
    color := barColor (indicatorPct value max)
    text := indicatorShown value displayOverride }

/-- `(ep.type || "").toLowerCase().replace(/\s+/g, "-")`: every maximal run of
whitespace becomes a single dash. -/
def dashWhitespaceAux (prevWs : Bool) : List Char → List Char
  | [] => []
  | c :: rest =>
    if c.isWhitespace then
      if prevWs then dashWhitespaceAux true rest
      else '-' :: dashWhitespaceAux true rest
    else c :: dashWhitespaceAux false rest

/-- String form of `dashWhitespaceAux`. -/
def dashWhitespace (s : String) : String := String.mk (dashWhitespaceAux false s.data)

/-- JS template interpolation of a possibly-absent string. -/
def jvalStrShow (v : JVal String) : String :=
  match v with
  | .undef => "undefined"
  | .null => "null"
  | .val s => s

/-- One episode block of the ERT list in the modal. -/
def ertEpisodeHTML (ep : Episode) : String :=
  let typeClass := dashWhitespace (jsOrStr ep.type "").toLower
  let endLabel :=
    match ep.end_year with
    | .val y => if y ≠ 0 then toString y else "ongoing"
    | _ => "ongoing"
  "\n        <div class=\"ert-episode " ++ typeClass ++ "\">\n          <div class=\"ert-type\">" ++
    jvalStrShow ep.type ++ "</div>\n          <div class=\"ert-years\">" ++
    toString ep.start_year ++ " – " ++ endLabel ++ "</div>\n          <div class=\"ert-desc\">" ++
    ep.description ++ "</div>\n        </div>"

/-- `ertList.innerHTML`: the explicit empty message, or the joined episode blocks. -/
def ertListInnerHTML (country : Country) : String :=
  let episodes := jsOrList country.ERT_episodes
  if episodes.length = 0 then
    "<p class=\"no-episodes\">No recorded regime transformation episodes.</p>"
  else String.join (episodes.map ertEpisodeHTML)

/-- One list item of the recent-events list in the modal. -/
def eventHTML (ev : RecentEvent) : String :=
  "\n      <li>\n        <span class=\"event-year\">" ++ toString ev.year ++
    "</span>\n        <span class=\"severity-dot " ++ ev.severity ++
    "\"></span>\n        <span>" ++ ev.event ++ "</span>\n      </li>"

/-- `eventsList.innerHTML`: the explicit empty message, or the joined items. -/
def eventsListInnerHTML (country : Country) : String :=
  let events := jsOrList country.recent_events
  if events.length = 0 then
    "<li style=\"font-size:0.86rem;font-style:italic;color:#666\">No recent events recorded.</li>"
  else String.join (events.map eventHTML)

/-! ## Trend chart (`renderTrendChart`, app.js lines 312-376) -/

/-- `W`, `H` and `PAD` of renderTrendChart, and the derived inner extent. -/
def trendPadTop : Rat := 10
/-- `PAD.right`. -/
def trendPadRight : Rat := 10
/-- `PAD.bottom`. -/
def trendPadBottom : Rat := 22
/-- `PAD.left`. -/
def trendPadLeft : Rat := 32
/-- `iW = W - PAD.left - PAD.right` with `W = 560`. -/
def trendInnerW : Rat := 560 - trendPadLeft - trendPadRight
/-- `iH = H - PAD.top - PAD.bottom` with `H = 120`. -/
def trendInnerH : Rat := 120 - trendPadTop - trendPadBottom

/-- `xScale` (with `minY = 0`, `maxY = 1` fixed, `minX`/`maxX` from the data).
When every point shares one year JS would divide by zero and produce NaN
coordinates; rational division by zero is total in the model. -/
def trendXScale (minX maxX y : Rat) : Rat :=
  trendPadLeft + (y - minX) / (maxX - minX) * trendInnerW

/-- `yScale` with the fixed `[0, 1]` value domain. -/
def trendYScale (v : Rat) : Rat :=
  trendPadTop + (1 - (v - 0) / (1 - 0)) * trendInnerH

/-- The structured content of the SVG that renderTrendChart builds: the single
polyline, the area polygon, one circle per data point, the x ticks, the trend
color and the final-value label (the SVG serializes the coordinates with
`toFixed(1)`). -/
structure TrendChartView where
  linePts : List (Rat × Rat)
  areaPts : List (Rat × Rat)
  dots : List (Rat × Rat)
  tickYears : List Int
  trendColor : String
  lastLabel : String
deriving DecidableEq, Repr

/-- A trend render either replaces the container with the placeholder
paragraph or draws a chart. -/
inductive TrendOutput where
  | placeholder (html : String)
  | chart (v : TrendChartView)
deriving DecidableEq, Repr

/-- The placeholder paragraph for degenerate trend input. -/
def noTrendHTML : String :=
  "<p style=\"font-size:.86rem;font-style:italic;color:#666\">No trend data available.</p>"

/-- `renderTrendChart`: `if (!pts || pts.length < 2)` renders the placeholder,
otherwise one dot per point and a single polyline through all points. -/
def renderTrendChart (country : Country) : TrendOutput :=
  match country.polyarchy_trend with
  | .val pts =>
    if pts.length < 2 then .placeholder noTrendHTML
    else
      let years := pts.map (·.year)
      let values := pts.map (·.value)
      let minX : Rat := ((years.headD 0 : Int) : Rat)
      let maxX : Rat := ((years.getLastD 0 : Int) : Rat)
      let midVal := values.getD (values.length / 2) 0
      let lastVal := values.getLastD 0
      let trendColor := if lastVal ≥ midVal then "#2e7d32" else "#b71c1c"
      let coord := fun (p : TrendPoint) => (trendXScale minX maxX ((p.year : Int) : Rat), trendYScale p.value)
      let linePts := pts.map coord
      let areaBase := trendYScale 0
      .chart
        { linePts := linePts
          areaPts := (trendXScale minX maxX minX, areaBase) :: linePts ++ [(trendXScale minX maxX maxX, areaBase)]
          dots := pts.map coord
          tickYears := (years.enum.filter (fun p => p.1 % 3 == 0)).map (·.2)
          trendColor := trendColor
          lastLabel := toFixed lastVal 2 }
  | _ => .placeholder noTrendHTML

/-- The observable outcome of `openModal` for one selected country. -/
structure ModalView where
  flag : String
  title : String
  statusText : String
  statusClass : String
  barPolyarchy : BarView
  barLibdem : BarView
  barBti : BarView
  ertList : String
  eventsList : String
  trend : TrendOutput
deriving DecidableEq, Repr

/-- `openModal`: header, status badge, three score bars, episode list, event
list and trend chart.  The BTI display expression can raise on an absent
(`undefined`) score, so the result is an `Except`. -/
def openModal (country : Country) : Except String ModalView := do
  let flag := (FLAGS.lookup country.iso2).getD "🏳"
  let statusClass := statusClassOf (statusKeyOf country)
  let btiDisp ← modalBtiDisplay country.BTI_governance_score
  pure
    { flag := flag
      title := country.name
      statusText := modalBadgeText country
      statusClass := "status-badge badge-" ++ statusClass
      barPolyarchy := setModalBar country.vDem_polyarchy_index 1 .null
      barLibdem := setModalBar country.libdem_index 1 .null
      barBti := setModalBar (btiNorm country.BTI_governance_score) 1 (.val btiDisp)
      ertList := ertListInnerHTML country
      eventsList := eventsListInnerHTML country
      trend := renderTrendChart country }

/-! ## Map module (map.js) -/

/-- ISO numeric country identifier → country name (`LATAM_ISO` in map.js). -/
def LATAM_ISO : List (Nat × String) :=
  [(32, "Argentina"), (68, "Bolivia"), (76, "Brazil"),
   (152, "Chile"), (170, "Colombia"), (188, "Costa Rica"),
   (192, "Cuba"), (214, "Dominican Republic"), (218, "Ecuador"),
   (222, "El Salvador"), (320, "Guatemala"), (340, "Honduras"),
   (484, "Mexico"), (558, "Nicaragua"), (591, "Panama"),
   (600, "Paraguay"), (604, "Peru"), (858, "Uruguay"),
   (862, "Venezuela"),
   (348, "Hungary"), (616, "Poland"), (688, "Serbia"),
   (792, "Turkey"), (268, "Georgia"), (112, "Belarus"),
   (356, "India"), (608, "Philippines"), (360, "Indonesia"),
   (788, "Tunisia"), (710, "South Africa"), (288, "Ghana"),
   (840, "United States"), (124, "Canada"),
   (376, "Israel")]

/-- Status → choropleth fill (`STATUS_FILL` in map.js). -/
def STATUS_FILL : List (String × String) :=
  [("stable", "#2e7d32"), ("recovering", "#1565c0"), ("at risk", "#f57f17"),
   ("backsliding", "#b71c1c"), ("autocracy", "#4a148c")]

/-- One step of the `countries.forEach` loop of `initMap`: the inner
`for ... of Object.entries(LATAM_ISO)` with `break` finds the first table entry
whose name strictly equals (`===`) the name of this record and points that numeric
identifier at the record. -/
def initMapStep (m : Nat → Option Country) (c : Country) : Nat → Option Country :=
  match LATAM_ISO.find? (fun p => p.2 == c.name) with
  | some p => fun iso => if iso == p.1 then some c else m iso
  | none => m

/-- `initMap`: rebuild the `isoToCountry` correlation table from scratch. -/
def initMap (countries : List Country) : Nat → Option Country :=
  countries.foldl initMapStep (fun _ => none)

/-- The remote world-topology document (a black-box input). -/
structure WorldAtlas where
  raw : String
deriving DecidableEq, Repr

/-- The mutable module state of map.js: the geometry cache and the
render-once guard. -/
structure MapState where
  cachedWorld : Option WorldAtlas
  mapRendered : Bool
deriving DecidableEq, Repr

/-- What a single `renderMap` activation did to the map panel. -/
inductive MapOutcome where
  | skipped
  | drew (w : WorldAtlas)
  | errored (inlineHTML : String)
deriving DecidableEq, Repr

/-- The inline error markup written into the map container on a failed load. -/
def mapErrorHTML (msg : String) : String :=
  "<p style=\"color:#b71c1c;padding:2rem;text-align:center\">\n        Failed to load map: " ++
    msg ++ "\n      </p>"

/-- `renderMap`: return immediately while the guard is set; otherwise set the
guard, fetch the geometry unless cached, draw on success, and on failure write
the inline error and clear the guard again (`mapRendered = false // allow
retry`).  `fetchResult` is what the awaited `d3.json` call would produce; the
final component records whether the network was touched. -/
def renderMap (st : MapState) (fetchResult : Except String WorldAtlas) :
    MapState × MapOutcome × Bool :=
  if st.mapRendered then (st, .skipped, false)
  else
    match st.cachedWorld with
    | some w => ({ st with mapRendered := true }, .drew w, false)
    | none =>
      match fetchResult with
      | .ok w => ({ cachedWorld := some w, mapRendered := true }, .drew w, true)
      | .error e => ({ st with mapRendered := false }, .errored (mapErrorHTML e), true)

/-- The `fill` attribute callback of `drawMap`: unmatched features get the
neutral no-data fill, matched ones the status palette with the `"#999"`
fallback for an unrecognized status. -/
def featureFill (isoToCountry : Nat → Option Country) (id : Nat) : String :=
  match isoToCountry id with
  | none => "#d4d4d4"
  | some country =>
    (STATUS_FILL.lookup (jsOrStr country.status_indicator "").toLower).getD "#999"

/-- The `opacity` attribute callback: `1` when matched, `0.45` otherwise. -/
def featureOpacity (isoToCountry : Nat → Option Country) (id : Nat) : Rat :=
  if (isoToCountry id).isSome then 1 else mkRat 45 100

/-- The `stroke-width` attribute callback. -/
def featureStrokeWidth (isoToCountry : Nat → Option Country) (id : Nat) : Rat :=
  if (isoToCountry id).isSome then mkRat 8 10 else mkRat 4 10

/-- The `cursor` style callback. -/
def featureCursor (isoToCountry : Nat → Option Country) (id : Nat) : String :=
  if (isoToCountry id).isSome then "pointer" else "default"

/-- The `mouseover` handler: `if (!country) return;` — for an unmatched
feature nothing is raised or highlighted and no tooltip appears; a matched
feature is highlighted and the tooltip shows its record. -/
def featureMouseover (isoToCountry : Nat → Option Country) (id : Nat) : Option Country :=
  match isoToCountry id with
  | none => none
  | some country => some country

/-- The `click` handler: `if (country) openModal(country)` — the modal opens
only for the record of a matched feature. -/
def featureClick (isoToCountry : Nat → Option Country) (id : Nat) : Option Country :=
  match isoToCountry id with
  | none => none
  | some country => some country

/-- Status pill color inside the tooltip:
`STATUS_FILL[(status || "").toLowerCase()] || "#aaa"`. -/
def tooltipStatusColor (c : Country) : String :=
  (STATUS_FILL.lookup (jsOrStr c.status_indicator "").toLower).getD "#aaa"

/-- `showMapTooltip`: the tooltip markup for a hovered record.  The three
metric lines guard only against `null`, so an absent (`undefined`) metric
raises a `TypeError`. -/
def showMapTooltip (country : Country) : Except String String := do
  let poly := country.vDem_polyarchy_index
  let lib := country.libdem_index
  let bti := country.BTI_governance_score
  let flag := (FLAGS.lookup country.iso2).getD ""
  let statusColor := tooltipStatusColor country
  let polyS ← if poly ≠ JVal.null then jsToFixed poly 2 else pure "—"
  let libS ← if lib ≠ JVal.null then jsToFixed lib 2 else pure "—"
  let btiS ← if bti ≠ JVal.null then (fun s => s ++ "/10") <$> jsToFixed bti 1 else pure "—"
  pure ("\n    <strong style=\"font-size:14px\">" ++ flag ++ " " ++ country.name ++
    "</strong><br>\n    <span style=\"\n      display:inline-block;margin:3px 0 5px;\n      background:" ++
    statusColor ++ ";color:#fff;\n      border-radius:99px;padding:1px 8px;font-size:10px;\n      font-weight:700;text-transform:uppercase;letter-spacing:.05em\n    \">" ++
    jsOrStr country.status_indicator "—" ++
    "</span><br>\n    <span style=\"opacity:.75;font-size:11px\">\n      Electoral Democracy: <strong>" ++
    polyS ++ "</strong><br>\n      Liberal Democracy: <strong>" ++ libS ++
    "</strong><br>\n      BTI Score: <strong>" ++ btiS ++
    "</strong>\n    </span><br>\n    <span style=\"opacity:.55;font-size:10px;margin-top:3px;display:block\">Click for full details</span>\n  ")

/-! ## Sample records (inputs for concrete evaluations) -/

/-- A fully-populated sample record with BTI score 8.5. -/
def sampleArgentina : Country :=
  { name := "Argentina", iso2 := "AR", status_indicator := .val "at risk",
    vDem_polyarchy_index := .val (mkRat 7 10), libdem_index := .val (mkRat 6 10),
    BTI_governance_score := .val (mkRat 17 2), DEED_event_counts := .val 3,
    ERT_episodes := .val [], recent_events := .val [],
    polyarchy_trend := .val [⟨2019, mkRat 8 10⟩, ⟨2020, mkRat 75 100⟩, ⟨2021, mkRat 7 10⟩] }

/-- A record whose BTI score is `null` and whose libdem index is `null`. -/
def sampleNullBti : Country :=
  { name := "Brazil", iso2 := "BR", status_indicator := .val "recovering",
    vDem_polyarchy_index := .val (mkRat 8 10), libdem_index := .null,
    BTI_governance_score := .null, DEED_event_counts := .val 1,
    ERT_episodes := .val [], recent_events := .val [], polyarchy_trend := .undef }

/-- A record whose BTI score is absent (`undefined`), not `null`. -/
def sampleUndefBti : Country :=
  { sampleArgentina with name := "Chile", iso2 := "CL", BTI_governance_score := .undef }

/-- A record with an unrecognized (non-empty) status value. -/
def sampleHybrid : Country :=
  { sampleNullBti with name := "Freedonia", iso2 := "FD", status_indicator := .val "hybrid" }

/-- A record with no status at all. -/
def sampleNoStatus : Country :=
  { sampleNullBti with name := "Erewhon", iso2 := "EW", status_indicator := .undef }

/-- A record whose status carries different capitalization. -/
def sampleStableCase : Country :=
  { sampleNullBti with name := "Ruritania", status_indicator := .val "Stable" }

/-- A record with a single-point trend series. -/
def sampleShortTrend : Country :=
  { sampleNullBti with name := "Oneland", polyarchy_trend := .val [⟨2020, mkRat 1 2⟩] }

/-- A record whose name appears nowhere in the identifier table. -/
def sampleAtlantis : Country :=
  { sampleNullBti with name := "Atlantis" }

/-! ## Helper lemmas -/

/-- Did an `Except` computation succeed? -/
def isOkE {ε α : Type} : Except ε α → Bool
  | .ok _ => true
  | .error _ => false

/-- Equality of `Except` results is decidable componentwise. -/
instance {ε α : Type} [DecidableEq ε] [DecidableEq α] : DecidableEq (Except ε α) := by
  intro a b
  cases a <;> cases b <;> first
    | exact isFalse (by intro h; exact Except.noConfusion h)
    | · rename_i x y
        exact if h : x = y then isTrue (by rw [h]) else isFalse (by intro hc; injection hc; contradiction)

/-- The nullish fallback keeps a present value. -/
theorem JVal.nullish_val {α : Type} (a d : α) : (JVal.val a).nullish d = a := rfl

/-- The nullish fallback replaces a missing value. -/
theorem JVal.nullish_of_not_isVal {α : Type} (v : JVal α) (d : α) (h : v.isVal = false) :
    v.nullish d = d := by
  cases v <;> simp [JVal.nullish, JVal.isVal] at h ⊢

/-! ## C5: render-once guard, cache and retry of `renderMap` -/

/-- C5: when the guard is clear and nothing is cached, a failed geometry fetch
surfaces the inline error and leaves the guard clear, so the immediately
following activation fetches again (retry); a successful fetch caches the
document and sets the guard, and any later activation returns at once without
touching the network. -/
theorem c5_map_guard (st : MapState) (w : WorldAtlas) (e : String)
    (fetch2 : Except String WorldAtlas)
    (hg : st.mapRendered = false) (hc : st.cachedWorld = none) :
    renderMap st (.error e) =
      ({ cachedWorld := none, mapRendered := false }, .errored (mapErrorHTML e), true) ∧
    renderMap (renderMap st (.error e)).1 (.ok w) =
      ({ cachedWorld := some w, mapRendered := true }, .drew w, true) ∧
    renderMap st (.ok w) =
      ({ cachedWorld := some w, mapRendered := true }, .drew w, true) ∧
    renderMap (renderMap st (.ok w)).1 fetch2 = ((renderMap st (.ok w)).1, .skipped, false) := by
  obtain ⟨cw, mr⟩ := st
  simp only at hg hc
  subst hg hc
  refine ⟨rfl, rfl, rfl, rfl⟩

/-- Witness for C5 at a concrete state, document and error. -/
theorem c5_map_guard_witness :
    renderMap ⟨none, false⟩ (.error "HTTP 500") =
      (⟨none, false⟩, .errored (mapErrorHTML "HTTP 500"), true) ∧
    renderMap (renderMap ⟨none, false⟩ (.error "HTTP 500")).1 (.ok ⟨"topology"⟩) =
      (⟨some ⟨"topology"⟩, true⟩, .drew ⟨"topology"⟩, true) ∧
    renderMap ⟨none, false⟩ (.ok ⟨"topology"⟩) =
      (⟨some ⟨"topology"⟩, true⟩, .drew ⟨"topology"⟩, true) ∧
    renderMap (renderMap ⟨none, false⟩ (.ok ⟨"topology"⟩)).1 (.error "offline") =
      ((renderMap ⟨none, false⟩ (.ok ⟨"topology"⟩)).1, .skipped, false) :=
  c5_map_guard ⟨none, false⟩ ⟨"topology"⟩ "HTTP 500" (.error "offline") rfl rfl

/-! ## C6: the derivation leaves the store untouched -/

/-- C6: `getFilteredSorted` is a pure function of the stored list and the
criteria; the state comes back unchanged (same records in the same order) and
every record of the result is literally an element of the stored list, so no
record was modified or fabricated. -/
theorem c6_derivation_pure (s : AppState) :
    (getFilteredSortedS s).2 = s ∧
    ∀ c ∈ (getFilteredSortedS s).1, c ∈ s.allCountries := by
  refine ⟨rfl, fun c hc => ?_⟩
  simp only [getFilteredSortedS, getFilteredSorted] at hc
  rw [List.mem_insertionSort] at hc
  exact (List.mem_filter.mp hc).1

/-- Witness for C6 at a concrete state. -/
theorem c6_derivation_pure_witness :
    (getFilteredSortedS ⟨[sampleArgentina], ⟨"all", "name", "asc", ""⟩⟩).2 =
      ⟨[sampleArgentina], ⟨"all", "name", "asc", ""⟩⟩ ∧
    sampleArgentina ∈ (⟨[sampleArgentina], ⟨"all", "name", "asc", ""⟩⟩ : AppState).allCountries := by
  refine ⟨(c6_derivation_pure _).1, ?_⟩
  refine (c6_derivation_pure ⟨[sampleArgentina], ⟨"all", "name", "asc", ""⟩⟩).2 sampleArgentina ?_
  with_unfolding_all decide

/-! ## C7: unmatched features are inert, matched ones use the palette -/

/-- The click handler forwards exactly the correlation lookup. -/
theorem featureClick_eq (f : Nat → Option Country) (id : Nat) : featureClick f id = f id := by
  unfold featureClick
  cases f id <;> rfl

/-- The mouseover handler forwards exactly the correlation lookup. -/
theorem featureMouseover_eq (f : Nat → Option Country) (id : Nat) :
    featureMouseover f id = f id := by
  unfold featureMouseover
  cases f id <;> rfl

/-- C7: a feature whose identifier has no correlation entry gets the neutral
no-data fill at opacity 0.45 with a default cursor, its hover shows neither a
highlight nor a tooltip, and its click opens no modal; a matched feature is
drawn at full opacity and clickable, is filled by the palette entry for its status, and
falls back to the distinct `#999` when its status has no palette entry. -/
theorem c7_feature_rendering (iso2c : Nat → Option Country) (id : Nat) :
    (iso2c id = none →
      featureFill iso2c id = "#d4d4d4" ∧
      featureOpacity iso2c id = mkRat 45 100 ∧
      featureCursor iso2c id = "default" ∧
      featureMouseover iso2c id = none ∧
      featureClick iso2c id = none) ∧
    (∀ c, iso2c id = some c →
      featureOpacity iso2c id = 1 ∧
      featureCursor iso2c id = "pointer" ∧
      featureMouseover iso2c id = some c ∧
      featureClick iso2c id = some c ∧
      (∀ fill, STATUS_FILL.lookup ((jsOrStr c.status_indicator "").toLower) = some fill →
        featureFill iso2c id = fill) ∧
      (STATUS_FILL.lookup ((jsOrStr c.status_indicator "").toLower) = none →
        featureFill iso2c id = "#999")) := by
  constructor
  · intro h
    rw [featureMouseover_eq, featureClick_eq]
    refine ⟨?_, ?_, ?_, h, h⟩ <;> simp [featureFill, featureOpacity, featureCursor, h]
  · intro c h
    rw [featureMouseover_eq, featureClick_eq]
    refine ⟨?_, ?_, h, h, ?_, ?_⟩
    · simp [featureOpacity, h]
    · simp [featureCursor, h]
    · intro fill hf
      simp [featureFill, h, hf]
    · intro hf
      simp [featureFill, h, hf]

/-- Witness for C7: identifier 1 is unmatched, identifier 32 matched. -/
theorem c7_feature_rendering_witness :
    featureFill (initMap [sampleArgentina]) 1 = "#d4d4d4" ∧
    featureClick (initMap [sampleArgentina]) 1 = none ∧
    featureFill (initMap [sampleArgentina]) 32 = "#f57f17" ∧
    featureClick (initMap [sampleArgentina]) 32 = some sampleArgentina := by
  have h1 : initMap [sampleArgentina] 1 = none := by with_unfolding_all decide
  have h32 : initMap [sampleArgentina] 32 = some sampleArgentina := by
    with_unfolding_all decide
  have u := (c7_feature_rendering (initMap [sampleArgentina]) 1).1 h1
  have m := (c7_feature_rendering (initMap [sampleArgentina]) 32).2 sampleArgentina h32
  refine ⟨u.1, u.2.2.2.2, ?_, m.2.2.2.1⟩
  exact m.2.2.2.2.1 "#f57f17" (by with_unfolding_all decide)

/-! ## C10: the correlation table is keyed by verbatim name equality -/

/-- Accumulator invariant for the `initMap` fold: any entry of the built table
either came from the initial accumulator or pairs an identifier with a record
whose name appears verbatim next to that identifier in `LATAM_ISO`. -/
theorem initMap_fold_mem (cs : List Country) (m : Nat → Option Country) (iso : Nat)
    (c : Country) (h : (cs.foldl initMapStep m) iso = some c) :
    m iso = some c ∨ ((iso, c.name) ∈ LATAM_ISO ∧ c ∈ cs) := by
  induction cs generalizing m with
  | nil => exact Or.inl h
  | cons hd tl ih =>
    simp only [List.foldl_cons] at h
    rcases ih (initMapStep m hd) h with h' | ⟨htab, hmem⟩
    · unfold initMapStep at h'
      cases hfind : LATAM_ISO.find? (fun p => p.2 == hd.name) with
      | none =>
        rw [hfind] at h'
        exact Or.inl h'
      | some p =>
        rw [hfind] at h'
        dsimp only at h'
        by_cases hiso : (iso == p.1) = true
        · rw [if_pos hiso] at h'
          have hc : hd = c := by
            injection h'
          have hpmem := List.mem_of_find?_eq_some hfind
          have hpred := List.find?_some hfind
          have hpname : p.2 = hd.name := by
            simpa [beq_iff_eq] using hpred
          refine Or.inr ⟨?_, hc ▸ List.mem_cons_self hd tl⟩
          have : (iso, c.name) = p := by
            obtain ⟨p1, p2⟩ := p
            simp only [beq_iff_eq] at hiso
            simp only at hpname
            simp [hiso, ← hc, hpname.symm]
          rw [this]
          exact hpmem
        · rw [if_neg hiso] at h'
          exact Or.inl h'
    · exact Or.inr ⟨htab, List.mem_cons_of_mem hd hmem⟩

/-- C10: the table built by `initMap` maps an identifier to a record only when
the identifier sits next to exactly the name of that record, verbatim, in
`LATAM_ISO`; consequently a record whose name appears nowhere in the table is
never matched, so no feature click opens its modal and no hover highlights it
or shows its tooltip. -/
theorem c10_init_map_exact (cs : List Country) (iso : Nat) (c : Country) :
    (initMap cs iso = some c → (iso, c.name) ∈ LATAM_ISO ∧ c ∈ cs) ∧
    ((∀ p ∈ LATAM_ISO, p.2 ≠ c.name) →
      featureClick (initMap cs) iso ≠ some c ∧ featureMouseover (initMap cs) iso ≠ some c) := by
  have main : initMap cs iso = some c → (iso, c.name) ∈ LATAM_ISO ∧ c ∈ cs := by
    intro h
    rcases initMap_fold_mem cs (fun _ => none) iso c h with h' | h'
    · exact absurd h' (by simp)
    · exact h'
  refine ⟨main, fun hnone => ⟨?_, ?_⟩⟩
  · rw [featureClick_eq]
    intro hclick
    exact hnone (iso, c.name) (main hclick).1 rfl
  · rw [featureMouseover_eq]
    intro hover
    exact hnone (iso, c.name) (main hover).1 rfl

/-- Witness for C10: "Atlantis" is in no table entry, so feature 32 can
neither open its modal nor tooltip it. -/
theorem c10_init_map_exact_witness :
    featureClick (initMap [sampleAtlantis]) 32 ≠ some sampleAtlantis ∧
    featureMouseover (initMap [sampleAtlantis]) 32 ≠ some sampleAtlantis :=
  (c10_init_map_exact [sampleAtlantis] 32 sampleAtlantis).2
    (by with_unfolding_all decide)

/-! ## C2 / C4: the filter predicate and the shape of the derivation -/

/-- Membership in the derivation is membership in the filtered input. -/
theorem mem_getFilteredSorted (l : List Country) (f : Filters) (c : Country) :
    c ∈ getFilteredSorted l f ↔ c ∈ l ∧ filterPred f.status f.search c = true := by
  unfold getFilteredSorted
  rw [List.mem_insertionSort, List.mem_filter]

/-- The filter callback, unfolded to its two clauses. -/
theorem filterPred_iff (status search : String) (c : Country) :
    filterPred status search c = true ↔
      (status = "all" ∨ (jsOrStr c.status_indicator "").toLower = status) ∧
      (search = "" ∨ strIncludes c.name.toLower search.toLower = true) := by
  unfold filterPred
  simp only [Bool.and_eq_true, Bool.or_eq_true, beq_iff_eq]

/-- C2 counterexample: with status filter "STABLE" and a record whose status
is "Stable", the two are equal under case-insensitive comparison, yet the
derivation drops the record — only the side of the record is lowercased. -/
theorem c2_counterexample :
    "Stable".toLower = "STABLE".toLower ∧
    getFilteredSorted [sampleStableCase]
      { status := "STABLE", sortBy := "name", sortOrder := "asc", search := "" } = [] := by
  with_unfolding_all decide

/-- C2 (amended): a record is in the derivation iff it is drawn from the input
and (the status filter is "all" or the lowercased status of the record equals the
filter value verbatim) and (the search text is empty or its lowercased form is
a substring of the lowercased name). -/
theorem c2_filter_membership (l : List Country) (f : Filters) (c : Country) :
    c ∈ getFilteredSorted l f ↔
      c ∈ l ∧
        (f.status = "all" ∨ (jsOrStr c.status_indicator "").toLower = f.status) ∧
        (f.search = "" ∨ strIncludes c.name.toLower f.search.toLower = true) := by
  rw [mem_getFilteredSorted, filterPred_iff]

/-- Witness for C2: the "arg" search scenario selects exactly Argentina. -/
theorem c2_filter_membership_witness :
    sampleArgentina ∈ getFilteredSorted [sampleNullBti, sampleArgentina]
      { status := "all", sortBy := "name", sortOrder := "asc", search := "arg" } :=
  (c2_filter_membership [sampleNullBti, sampleArgentina]
      { status := "all", sortBy := "name", sortOrder := "asc", search := "arg" }
      sampleArgentina).mpr
    ⟨by with_unfolding_all decide, Or.inl rfl, Or.inr (by with_unfolding_all decide)⟩

/-- C4 counterexample: with name-ascending criteria the derivation reorders
the input, so the result is not an order-preserving subsequence of it. -/
theorem c4_counterexample :
    ¬ (getFilteredSorted [sampleNullBti, sampleArgentina]
        { status := "all", sortBy := "name", sortOrder := "asc", search := "" }).Sublist
      [sampleNullBti, sampleArgentina] := by
  with_unfolding_all decide

/-- C4 (amended): the derivation is a permutation of the sublist of the input
consisting of the records that pass the filter — so no record is fabricated —
and every element of the result satisfies both the status and the search
predicate. -/
theorem c4_subset_and_predicates (l : List Country) (f : Filters) :
    (getFilteredSorted l f).Perm (l.filter (filterPred f.status f.search)) ∧
    (l.filter (filterPred f.status f.search)).Sublist l ∧
    ∀ c ∈ getFilteredSorted l f,
      (f.status = "all" ∨ (jsOrStr c.status_indicator "").toLower = f.status) ∧
      (f.search = "" ∨ strIncludes c.name.toLower f.search.toLower = true) := by
  refine ⟨List.perm_insertionSort _ _, List.filter_sublist _, fun c hc => ?_⟩
  exact (filterPred_iff f.status f.search c).mp ((mem_getFilteredSorted l f c).mp hc).2

/-- Witness for C4 at concrete records and criteria. -/
theorem c4_subset_and_predicates_witness :
    ("all" = "all" ∨ (jsOrStr sampleArgentina.status_indicator "").toLower = "all") ∧
    ("" = "" ∨ strIncludes sampleArgentina.name.toLower "".toLower = true) :=
  (c4_subset_and_predicates [sampleArgentina]
    { status := "all", sortBy := "name", sortOrder := "asc", search := "" }).2.2
    sampleArgentina (by with_unfolding_all decide)

/-! ## C3: sentinels for missing sort keys and order reversal -/

/-- A record with a present BTI score but missing polyarchy index and event
count. -/
def sampleNoPoly : Country :=
  { sampleArgentina with
    name := "Mexico", iso2 := "MX",
    vDem_polyarchy_index := .undef, DEED_event_counts := .null }

/-- C3: for every record, the comparator substitutes the sentinel -1 for a
missing polyarchy/libdem/bti value and 0 for missing event counts; the name
key compares through localeCompare; "desc" exactly reverses the comparison
direction for every key and every pair; missing values sort lowest ascending,
and concretely a record with BTI 8.5 precedes a null-BTI record under
bti/desc. -/
theorem c3_sort_sentinels_reversal (a b : Country) (v : Rat)
    (hmiss : a.BTI_governance_score.isVal = false)
    (hb : b.BTI_governance_score = JVal.val v) (hv : 0 ≤ v) :
    (∀ x : Country, x.BTI_governance_score.isVal = false →
      sortVal "bti" x = SortVal.num (-1)) ∧
    (∀ x : Country, x.vDem_polyarchy_index.isVal = false →
      sortVal "polyarchy" x = SortVal.num (-1)) ∧
    (∀ x : Country, x.libdem_index.isVal = false →
      sortVal "libdem" x = SortVal.num (-1)) ∧
    (∀ x : Country, x.DEED_event_counts.isVal = false →
      sortVal "events" x = SortVal.num 0) ∧
    (∀ x y : Country, sortCmp "name" "asc" x y = ((localeCompare x.name y.name : Int) : Rat)) ∧
    (∀ key : String, ∀ x y : Country, sortCmp key "desc" x y = sortCmp key "asc" y x) ∧
    sortCmp "bti" "asc" a b ≤ 0 ∧
    sortCmp "bti" "desc" b a < 0 := by
  have ebti : ∀ x : Country, x.BTI_governance_score.isVal = false →
      sortVal "bti" x = SortVal.num (-1) := by
    intro x h
    simp [sortVal, JVal.nullish_of_not_isVal _ _ h]
  have e2 : sortVal "bti" b = SortVal.num v := by
    simp [sortVal, hb, JVal.nullish]
  have hrev : ∀ key : String, ∀ x y : Country, sortCmp key "desc" x y = sortCmp key "asc" y x := by
    intro key x y
    unfold sortCmp
    cases sortVal key x <;> cases sortVal key y <;> simp
  have hasc : sortCmp "bti" "asc" a b = -1 - v := by
    unfold sortCmp
    rw [ebti a hmiss, e2]
    simp
  refine ⟨ebti, ?_, ?_, ?_, ?_, hrev, ?_, ?_⟩
  · intro x h
    simp [sortVal, JVal.nullish_of_not_isVal _ _ h]
  · intro x h
    simp [sortVal, JVal.nullish_of_not_isVal _ _ h]
  · intro x h
    simp [sortVal, JVal.nullish_of_not_isVal _ _ h]
  · intro x y
    unfold sortCmp
    simp [sortVal]
  · rw [hasc]
    linarith
  · rw [hrev, hasc]
    linarith

/-- Witness for C3: the null BTI score of Brazil against the 8.5 of Argentina,
plus the sentinels for a record whose BTI is present but whose polyarchy index
and event count are missing. -/
theorem c3_sort_sentinels_reversal_witness :
    sortVal "bti" sampleNullBti = SortVal.num (-1) ∧
    sortVal "polyarchy" sampleNoPoly = SortVal.num (-1) ∧
    sortVal "libdem" sampleNullBti = SortVal.num (-1) ∧
    sortVal "events" sampleNoPoly = SortVal.num 0 ∧
    sortCmp "bti" "desc" sampleArgentina sampleNullBti < 0 := by
  have h := c3_sort_sentinels_reversal sampleNullBti sampleArgentina (mkRat 17 2) rfl rfl
    (by with_unfolding_all decide)
  exact ⟨h.1 sampleNullBti rfl, h.2.1 sampleNoPoly rfl, h.2.2.1 sampleNullBti rfl,
    h.2.2.2.1 sampleNoPoly rfl, h.2.2.2.2.2.2.2⟩

/-! ## C1: absent vs null optional numeric fields in the renderers -/

/-- C1: the code contradicts the claim at an absent BTI score.  A record whose
`BTI_governance_score` is `undefined` (absent, not `null`) makes the card, the
table row, the modal and the map tooltip raise a TypeError, because the
display expressions guard only `!== null` before calling `toFixed`; the same
renderers do produce the em-dash placeholder and a 0% bar for a `null`
score. -/
theorem c1_absent_bti_raises :
    cardHTML sampleUndefBti = .error "TypeError: cannot read toFixed of undefined" ∧
    tableRowHTML sampleUndefBti = .error "TypeError: cannot read toFixed of undefined" ∧
    openModal sampleUndefBti = .error "TypeError: cannot read toFixed of undefined" ∧
    showMapTooltip sampleUndefBti = .error "TypeError: cannot read toFixed of undefined" ∧
    isOkE (cardHTML sampleNullBti) = true ∧
    isOkE (tableRowHTML sampleNullBti) = true ∧
    isOkE (showMapTooltip sampleNullBti) = true ∧
    (openModal sampleNullBti).map (fun v => (v.barBti.pct, v.barBti.text)) = .ok (0, "—") := by
  with_unfolding_all decide

/-! ## C8: fallback presentation for missing or unrecognized status -/

/-- The card BTI display succeeds whenever the score is not `undefined`. -/
theorem cardBtiDisplay_isOk (bti : JVal Rat) (h : bti ≠ JVal.undef) :
    ∃ s, cardBtiDisplay bti = .ok s := by
  cases bti with
  | undef => exact absurd rfl h
  | null => exact ⟨"—", rfl⟩
  | val q => exact ⟨toFixed q 1 ++ "/10", rfl⟩

/-- The table BTI display succeeds whenever the score is not `undefined`. -/
theorem tableBtiDisplay_isOk (bti : JVal Rat) (h : bti ≠ JVal.undef) :
    ∃ s, tableBtiDisplay bti = .ok s := by
  cases bti with
  | undef => exact absurd rfl h
  | null => exact ⟨"—", rfl⟩
  | val q => exact ⟨toFixed q 1, rfl⟩

/-- The modal BTI display succeeds whenever the score is not `undefined`. -/
theorem modalBtiDisplay_isOk (bti : JVal Rat) (h : bti ≠ JVal.undef) :
    ∃ s, modalBtiDisplay bti = .ok s := by
  cases bti with
  | undef => exact absurd rfl h
  | null => exact ⟨"—", rfl⟩
  | val q => exact ⟨toFixed q 1 ++ " / 10", rfl⟩

/-- The card renders without raising when the BTI score is not `undefined`. -/
theorem cardHTML_isOk (c : Country) (h : c.BTI_governance_score ≠ JVal.undef) :
    isOkE (cardHTML c) = true := by
  obtain ⟨s, hs⟩ := cardBtiDisplay_isOk c.BTI_governance_score h
  unfold cardHTML
  simp only [hs]
  rfl

/-- The table row renders without raising when the BTI score is not `undefined`. -/
theorem tableRowHTML_isOk (c : Country) (h : c.BTI_governance_score ≠ JVal.undef) :
    isOkE (tableRowHTML c) = true := by
  obtain ⟨s, hs⟩ := tableBtiDisplay_isOk c.BTI_governance_score h
  unfold tableRowHTML
  simp only [hs]
  rfl

/-- The modal renders without raising when the BTI score is not `undefined`. -/
theorem openModal_isOk (c : Country) (h : c.BTI_governance_score ≠ JVal.undef) :
    isOkE (openModal c) = true := by
  obtain ⟨s, hs⟩ := modalBtiDisplay_isOk c.BTI_governance_score h
  unfold openModal
  simp only [hs]
  rfl

/-- C8 counterexample: an unrecognized non-empty status is rendered verbatim
in the card badge, not as the "unknown" fallback (though the color band does
fall back), and the table shows an em-dash, not "unknown", for a missing
status. -/
theorem c8_counterexample :
    cardBadgeText sampleHybrid = "hybrid" ∧
    cardBadgeText sampleHybrid ≠ "unknown" ∧
    tableBadgeText sampleNoStatus = "—" ∧
    statusClassOf (statusKeyOf sampleHybrid) = "at-risk" := by
  with_unfolding_all decide

/-- C8 (amended): for a record whose status key has no entry in the class
table (missing or unrecognized status), every renderer falls back to the
at-risk color band; the badge text falls back to "unknown" (card, modal) or
the em-dash (table) only when the status is absent or empty, while an
unrecognized non-empty status is shown verbatim; and rendering raises nothing
as long as the BTI score is not `undefined` (see C1 for that failure). -/
theorem c8_status_fallback (c : Country)
    (hbti : c.BTI_governance_score ≠ JVal.undef)
    (hs : STATUS_CLASS.lookup ((jsOrStr c.status_indicator "").toLower) = none) :
    statusClassOf (statusKeyOf c) = "at-risk" ∧
    (jsOrStr c.status_indicator "" = "" →
      cardBadgeText c = "unknown" ∧ modalBadgeText c = "unknown" ∧ tableBadgeText c = "—") ∧
    (∀ s, c.status_indicator = JVal.val s → s ≠ "" →
      cardBadgeText c = s ∧ modalBadgeText c = s ∧ tableBadgeText c = s) ∧
    isOkE (cardHTML c) = true ∧ isOkE (tableRowHTML c) = true ∧
    isOkE (openModal c) = true := by
  refine ⟨?_, ?_, ?_, cardHTML_isOk c hbti, tableRowHTML_isOk c hbti, openModal_isOk c hbti⟩
  · cases hst : c.status_indicator with
    | undef => simp [statusKeyOf, statusClassOf, jsOrStr, hst]; with_unfolding_all decide
    | null => simp [statusKeyOf, statusClassOf, jsOrStr, hst]; with_unfolding_all decide
    | val s =>
      by_cases hempty : s = ""
      · subst hempty
        simp [statusKeyOf, statusClassOf, jsOrStr, hst]
        with_unfolding_all decide
      · rw [hst] at hs
        simp only [jsOrStr, if_neg hempty] at hs
        simp [statusKeyOf, statusClassOf, jsOrStr, hst, if_neg hempty, hs]
  · intro hempty
    cases hst : c.status_indicator with
    | undef => simp [cardBadgeText, modalBadgeText, tableBadgeText, jsOrStr, hst]
    | null => simp [cardBadgeText, modalBadgeText, tableBadgeText, jsOrStr, hst]
    | val s =>
      rw [hst] at hempty
      by_cases h0 : s = ""
      · subst h0
        simp [cardBadgeText, modalBadgeText, tableBadgeText, jsOrStr, hst]
      · simp only [jsOrStr, if_neg h0] at hempty
        exact absurd hempty h0
  · intro s hst h0
    simp [cardBadgeText, modalBadgeText, tableBadgeText, jsOrStr, hst, if_neg h0]

/-- Witness for C8: the "hybrid" status record. -/
theorem c8_status_fallback_witness :
    statusClassOf (statusKeyOf sampleHybrid) = "at-risk" ∧
    cardBadgeText sampleHybrid = "hybrid" ∧
    isOkE (cardHTML sampleHybrid) = true := by
  have h := c8_status_fallback sampleHybrid (by with_unfolding_all decide)
    (by with_unfolding_all decide)
  exact ⟨h.1, (h.2.2.1 "hybrid" rfl (by decide)).1, h.2.2.2.1⟩

/-! ## C9: degenerate trend input vs a full chart -/

/-- C9: a missing trend series, or one with fewer than 2 points, renders the
explanatory placeholder and no chart; a series with at least 2 points renders
a chart with exactly one marker dot per data point whose single polyline runs
through exactly the dot coordinates. -/
theorem c9_trend_chart (c : Country) :
    (c.polyarchy_trend.isVal = false → renderTrendChart c = .placeholder noTrendHTML) ∧
    (∀ pts, c.polyarchy_trend = JVal.val pts → pts.length < 2 →
      renderTrendChart c = .placeholder noTrendHTML) ∧
    (∀ pts, c.polyarchy_trend = JVal.val pts → 2 ≤ pts.length →
      ∃ v, renderTrendChart c = .chart v ∧
        v.dots.length = pts.length ∧
        v.linePts = v.dots) := by
  refine ⟨?_, ?_, ?_⟩
  · intro h
    unfold renderTrendChart
    cases hp : c.polyarchy_trend with
    | undef => rfl
    | null => rfl
    | val pts => rw [hp] at h; simp [JVal.isVal] at h
  · intro pts hp hlen
    unfold renderTrendChart
    rw [hp]
    simp only [if_pos hlen]
  · intro pts hp hlen
    unfold renderTrendChart
    rw [hp]
    simp only [if_neg (by omega : ¬ pts.length < 2)]
    exact ⟨_, rfl, by simp, rfl⟩

/-- Witness for C9: a one-point series renders the placeholder, a three-point
series renders a chart with three dots. -/
theorem c9_trend_chart_witness :
    renderTrendChart sampleShortTrend = .placeholder noTrendHTML ∧
    ∃ v, renderTrendChart sampleArgentina = .chart v ∧ v.dots.length = 3 := by
  constructor
  · exact (c9_trend_chart sampleShortTrend).2.1 [⟨2020, mkRat 1 2⟩] rfl (by decide)
  · obtain ⟨v, hv, hlen, _⟩ :=
      (c9_trend_chart sampleArgentina).2.2
        [⟨2019, mkRat 8 10⟩, ⟨2020, mkRat 75 100⟩, ⟨2021, mkRat 7 10⟩] rfl (by decide)
    exact ⟨v, hv, by rw [hlen]; rfl⟩
